import Mathlib

/-!
Verification development for the truthforland resources service.

The repository contains two variants of the same Express router for the
resources table:
  variant A = src/routes/resources.js   (no public_id column; the blob
              identifier is re-derived from file_url by string splitting;
              no multer fileFilter — only the Cloudinary-side
              allowed_formats list constrains uploads)
  variant B = src/unnamed/part_000      (public_id column stored; a multer
              fileFilter checks the MIME type before the storage engine
              uploads; size string guarded by a truthiness test)

Handlers are embedded as pure functions from the request data and the
database state (a list of rows) to a response, the new database state,
and an ordered trace of external events (Cloudinary calls and SQL
statements), which lets temporal claims be read off the trace.
-/

/-- One row of the resources table.  All columns except the primary key
are nullable; `none` models SQL NULL / JS undefined. -/
structure Row where
  id : Nat
  type_ : Option String
  title : Option String
  description : Option String
  size : Option String
  file_url : Option String
  public_id : Option String
  deriving DecidableEq

/-- The scalar body fields of an add/update request; `none` models an
absent multipart field (JS undefined). -/
structure ReqBody where
  type_ : Option String
  title : Option String
  description : Option String
  deriving DecidableEq

/-- The multer file object produced for an uploaded file: `path` is the
Cloudinary URL, `filename` the Cloudinary public id, `size` the byte
count (`none` models an undefined size), `mimetype` the declared MIME
type. -/
structure ReqFile where
  path : String
  filename : String
  size : Option Nat
  mimetype : String
  deriving DecidableEq

/-- A SQL parameter value: a string, NULL (JS undefined/null), or the
numeric id taken from the route parameters. -/
inductive SqlVal where
  | str (s : String)
  | null
  | num (n : Nat)
  deriving DecidableEq

/-- JS `undefined`/string coerced to a SQL parameter. -/
def optVal : Option String → SqlVal
  | some s => .str s
  | none => .null

/-- Observable external events of one request, in order: Cloudinary
upload / destroy calls and SQL statements against the resources table. -/
inductive Ev where
  | cloudUpload (file : ReqFile)
  | cloudDestroy (publicId : String) (raw : Bool)
  | sqlSelectById (id : Nat)
  | sqlInsert (values : List SqlVal)
  | sqlUpdate (query : String) (values : List SqlVal)
  | sqlDelete (id : Nat)
  deriving DecidableEq

/-- HTTP responses the handlers produce. -/
inductive Resp where
  | ok (row : Row)
  | okMsg (message : String)
  | err (status : Nat) (error : String)
  deriving DecidableEq

/-- Is the response an error response? -/
def Resp.isErr : Resp → Bool
  | .err _ _ => true
  | _ => false

/-- JS truthiness of a nullable string: null/undefined and the empty
string are falsy. -/
def jsTruthyStr : Option String → Bool
  | none => false
  | some s => s != ""

/-- SELECT * FROM resources WHERE id=$1, taking rows[0]. -/
def fetchById (id : Nat) (db : List Row) : Option Row :=
  db.find? (fun r => r.id == id)

/-- Effect of UPDATE ... WHERE id=$n on the table. -/
def replaceById (id : Nat) (r : Row) (db : List Row) : List Row :=
  db.map (fun x => if x.id == id then r else x)

/-- Effect of DELETE FROM resources WHERE id=$1. -/
def deleteById (id : Nat) (db : List Row) : List Row :=
  db.filter (fun x => !(x.id == id))

/-- The id SERIAL would assign to the next inserted row. -/
def nextId (db : List Row) : Nat :=
  (db.map Row.id).foldr max 0 + 1

/-- Two-digit zero padding of the fractional part. -/
def pad2 (n : Nat) : String :=
  if n < 10 then "0" ++ toString n else toString n

/-- Renders (bytes / 1024 / 1024).toFixed(2).  For bytes below 2^53 the
double divisions by 1024 are exact scalings, so ECMAScript toFixed(2)
rounds the exact rational bytes/2^20 half-up at two decimals, which is
what the integer arithmetic below computes. -/
def toFixed2MB (bytes : Nat) : String :=
  let centi := (bytes * 100 + 524288) / 1048576
  toString (centi / 100) ++ "." ++ pad2 (centi % 100)

/-- Variant A size string (src/routes/resources.js lines 46 and 86):
the template applies toFixed(2) unconditionally, so an undefined byte
count renders NaN. -/
def sizeStringA (size? : Option Nat) : String :=
  (match size? with
   | some n => toFixed2MB n
   | none => "NaN") ++ " MB"

/-- Variant B size string (src/unnamed/part_000 lines 61 and 98):
guarded by JS truthiness of file.size, so an undefined byte count and a
zero byte count both render the literal fallback. -/
def sizeStringB (size? : Option Nat) : String :=
  match size? with
  | some n => if n != 0 then toFixed2MB n ++ " MB" else "Unknown size"
  | none => "Unknown size"

/-- Variant A multer middleware: no fileFilter, so every incoming file
is streamed to the Cloudinary storage engine (the allowed_formats list
is evaluated remotely by the store, not in this code). -/
def multerA (incoming : Option ReqFile) : Option ReqFile × List Ev :=
  match incoming with
  | none => (none, [])
  | some f => (some f, [Ev.cloudUpload f])

/-- The MIME allow-list of variant B's fileFilter. -/
def allowedMimes : List String :=
  ["application/pdf", "application/msword",
   "application/vnd.openxmlformats-officedocument.wordprocessingml.document"]

/-- Outcome of variant B's multer middleware: either a fileFilter
rejection or the (optional) uploaded file handed to the handler. -/
inductive MulterOut where
  | rejected (msg : String)
  | passed (file? : Option ReqFile)
  deriving DecidableEq

/-- Variant B multer middleware: the fileFilter checks the MIME type
first and only on acceptance does the storage engine upload the file. -/
def multerB (incoming : Option ReqFile) : MulterOut × List Ev :=
  match incoming with
  | none => (.passed none, [])
  | some f =>
    if allowedMimes.contains f.mimetype then
      (.passed (some f), [Ev.cloudUpload f])
    else
      (.rejected "Invalid file type. Only PDF, DOC, DOCX allowed.", [])

/-- Variant A add handler body (src/routes/resources.js lines 40-60). -/
def addHandlerA (body : ReqBody) (file? : Option ReqFile) (db : List Row) :
    Resp × List Row × List Ev :=
  match file? with
  | none => (.err 400 "File is required", db, [])
  | some file =>
    let size := sizeStringA file.size
    let fileUrl := file.path
    let values := [optVal body.type_, optVal body.title, optVal body.description,
                   SqlVal.str size, SqlVal.str fileUrl]
    let newRow : Row :=
      { id := nextId db, type_ := body.type_, title := body.title,
        description := body.description, size := some size,
        file_url := some fileUrl, public_id := none }
    (.ok newRow, db ++ [newRow], [Ev.sqlInsert values])

/-- Variant A add pipeline: multer middleware, then the handler. -/
def addPipelineA (body : ReqBody) (incoming : Option ReqFile) (db : List Row) :
    Resp × List Row × List Ev :=
  let m := multerA incoming
  let h := addHandlerA body m.1 db
  (h.1, h.2.1, m.2 ++ h.2.2)

/-- Variant B add handler body (src/unnamed/part_000 lines 53-74). -/
def addHandlerB (body : ReqBody) (file? : Option ReqFile) (db : List Row) :
    Resp × List Row × List Ev :=
  match file? with
  | none => (.err 400 "File is required", db, [])
  | some file =>
    let fileUrl := file.path
    let publicId := file.filename
    let size := sizeStringB file.size
    let values := [optVal body.type_, optVal body.title, optVal body.description,
                   SqlVal.str size, SqlVal.str fileUrl, SqlVal.str publicId]
    let newRow : Row :=
      { id := nextId db, type_ := body.type_, title := body.title,
        description := body.description, size := some size,
        file_url := some fileUrl, public_id := some publicId }
    (.ok newRow, db ++ [newRow], [Ev.sqlInsert values])

/-- Variant B add pipeline: fileFilter middleware, then the handler.  A
fileFilter rejection propagates to the Express error handler (opaque
500 with the filter's message); the handler never runs. -/
def addPipelineB (body : ReqBody) (incoming : Option ReqFile) (db : List Row) :
    Resp × List Row × List Ev :=
  match multerB incoming with
  | (.rejected msg, evs) => (.err 500 msg, db, evs)
  | (.passed file?, evs) =>
    let h := addHandlerB body file? db
    (h.1, h.2.1, evs ++ h.2.2)

/-- Scanner behind JS String.prototype.split for a nonempty separator
c :: cs: accumulates characters of the current chunk in acc until the
separator is a prefix of the rest, then emits the chunk and skips the
remaining cs.length separator characters via the skip counter.  Matches
are found left to right and do not overlap, as in ECMAScript. -/
def splitGo (c : Char) (cs : List Char) : Nat → List Char → List Char →
    List (List Char)
  | _, acc, [] => [acc]
  | n + 1, acc, _ :: rest => splitGo c cs n acc rest
  | 0, acc, a :: rest =>
    if (c :: cs).isPrefixOf (a :: rest) then
      acc :: splitGo c cs cs.length [] rest
    else
      splitGo c cs 0 (acc ++ [a]) rest

/-- JS String.prototype.split restricted to the nonempty separators the
handlers use ("/resources/" and "."); an empty separator never occurs. -/
def jsSplit (s sep : String) : List String :=
  match sep.data with
  | [] => [s]
  | c :: cs => (splitGo c cs 0 [] s.data).map List.asString


/-- The blob identifier derivation of variant A (delete handler lines
113-117, update handler lines 79-83 of src/routes/resources.js):
file_url.split("/resources/")[1].split(".")[0].  Returns none when
element [1] does not exist, in which case the JS code throws a
TypeError that the surrounding try/catch turns into a 500. -/
def derivePublicId (url : String) : Option String :=
  match jsSplit url "/resources/" with
  | _ :: second :: _ => some ((jsSplit second ".").headD "")
  | _ => none

/-- Shared tail of variant A's update handler once a new file is present
(src/routes/resources.js lines 86-98): append the size and file_url
assignments at the running paramIndex, close the statement with the id
placeholder, run it and return the updated row. -/
def updateCommitA (id : Nat) (body : ReqBody) (file : ReqFile)
    (existing : Row) (db : List Row) (evs : List Ev) (query : String)
    (values : List SqlVal) (paramIndex : Nat) : Resp × List Row × List Ev :=
  let size := sizeStringA file.size
  let fileUrl := file.path
  let query := query ++ ", size=$" ++ toString paramIndex ++
    ", file_url=$" ++ toString (paramIndex + 1)
  let values := values ++ [SqlVal.str size, SqlVal.str fileUrl]
  let paramIndex := paramIndex + 2
  let query := query ++ " WHERE id=$" ++ toString paramIndex ++ " RETURNING *"
  let values := values ++ [SqlVal.num id]
  let updatedRow :=
    { existing with
      type_ := body.type_, title := body.title,
      description := body.description, size := some size,
      file_url := some fileUrl }
  (.ok updatedRow, replaceById id updatedRow db,
   evs ++ [Ev.sqlUpdate query values])

/-- Variant A update handler (src/routes/resources.js lines 63-103).
On a new file it first deletes the old blob, deriving the public id
from the stored file_url; on a file_url that lacks the /resources/
segment the derivation throws and the catch block answers 500 before
any destroy or UPDATE. -/
def updateHandlerA (id : Nat) (body : ReqBody) (file? : Option ReqFile)
    (db : List Row) : Resp × List Row × List Ev :=
  let ev0 := [Ev.sqlSelectById id]
  match fetchById id db with
  | none => (.err 404 "Resource not found", db, ev0)
  | some existing =>
    let query := "UPDATE resources SET type=$1, title=$2, description=$3"
    let values := [optVal body.type_, optVal body.title, optVal body.description]
    let paramIndex := 4
    match file? with
    | none =>
      let query := query ++ " WHERE id=$" ++ toString paramIndex ++ " RETURNING *"
      let values := values ++ [SqlVal.num id]
      let updatedRow :=
        { existing with
          type_ := body.type_, title := body.title,
          description := body.description }
      (.ok updatedRow, replaceById id updatedRow db,
       ev0 ++ [Ev.sqlUpdate query values])
    | some file =>
      if jsTruthyStr existing.file_url then
        match derivePublicId (existing.file_url.getD "") with
        | none => (.err 500 "Server error", db, ev0)
        | some publicId =>
          updateCommitA id body file existing db
            (ev0 ++ [Ev.cloudDestroy ("resources/" ++ publicId) true])
            query values paramIndex
      else
        updateCommitA id body file existing db ev0 query values paramIndex

/-- Shared tail of variant B's update handler once a new file is present
(src/unnamed/part_000 lines 96-108): appends size, file_url and
public_id assignments, shifting paramIndex by three. -/
def updateCommitB (id : Nat) (body : ReqBody) (file : ReqFile)
    (existing : Row) (db : List Row) (evs : List Ev) (query : String)
    (values : List SqlVal) (paramIndex : Nat) : Resp × List Row × List Ev :=
  let fileUrl := file.path
  let publicId := file.filename
  let size := sizeStringB file.size
  let query := query ++ ", size=$" ++ toString paramIndex ++
    ", file_url=$" ++ toString (paramIndex + 1) ++
    ", public_id=$" ++ toString (paramIndex + 2)
  let values := values ++ [SqlVal.str size, SqlVal.str fileUrl, SqlVal.str publicId]
  let paramIndex := paramIndex + 3
  let query := query ++ " WHERE id=$" ++ toString paramIndex ++ " RETURNING *"
  let values := values ++ [SqlVal.num id]
  let updatedRow :=
    { existing with
      type_ := body.type_, title := body.title,
      description := body.description, size := some size,
      file_url := some fileUrl, public_id := some publicId }
  (.ok updatedRow, replaceById id updatedRow db,
   evs ++ [Ev.sqlUpdate query values])

/-- Variant B update handler (src/unnamed/part_000 lines 78-114).  On a
new file it destroys the old blob via the stored public_id when that is
truthy; no URL parsing occurs. -/
def updateHandlerB (id : Nat) (body : ReqBody) (file? : Option ReqFile)
    (db : List Row) : Resp × List Row × List Ev :=
  let ev0 := [Ev.sqlSelectById id]
  match fetchById id db with
  | none => (.err 404 "Resource not found", db, ev0)
  | some existing =>
    let query := "UPDATE resources SET type=$1, title=$2, description=$3"
    let values := [optVal body.type_, optVal body.title, optVal body.description]
    let paramIndex := 4
    match file? with
    | none =>
      let query := query ++ " WHERE id=$" ++ toString paramIndex ++ " RETURNING *"
      let values := values ++ [SqlVal.num id]
      let updatedRow :=
        { existing with
          type_ := body.type_, title := body.title,
          description := body.description }
      (.ok updatedRow, replaceById id updatedRow db,
       ev0 ++ [Ev.sqlUpdate query values])
    | some file =>
      if jsTruthyStr existing.public_id then
        updateCommitB id body file existing db
          (ev0 ++ [Ev.cloudDestroy ("resources/" ++ existing.public_id.getD "") true])
          query values paramIndex
      else
        updateCommitB id body file existing db ev0 query values paramIndex

/-- Variant A delete handler (src/routes/resources.js lines 106-126):
fetch, 404 when absent, destroy the blob via the URL-derived public id
when file_url is truthy (500 when the derivation throws), then DELETE
the row. -/
def deleteHandlerA (id : Nat) (db : List Row) : Resp × List Row × List Ev :=
  let ev0 := [Ev.sqlSelectById id]
  match fetchById id db with
  | none => (.err 404 "Resource not found", db, ev0)
  | some resource =>
    if jsTruthyStr resource.file_url then
      match derivePublicId (resource.file_url.getD "") with
      | none => (.err 500 "Server error", db, ev0)
      | some publicId =>
        (.okMsg "Resource deleted", deleteById id db,
         ev0 ++ [Ev.cloudDestroy ("resources/" ++ publicId) true, Ev.sqlDelete id])
    else
      (.okMsg "Resource deleted", deleteById id db, ev0 ++ [Ev.sqlDelete id])

/-- Variant B delete handler (src/unnamed/part_000 lines 118-135):
fetch, 404 when absent, destroy the blob via the stored public_id when
truthy, then DELETE the row. -/
def deleteHandlerB (id : Nat) (db : List Row) : Resp × List Row × List Ev :=
  let ev0 := [Ev.sqlSelectById id]
  match fetchById id db with
  | none => (.err 404 "Resource not found", db, ev0)
  | some resource =>
    if jsTruthyStr resource.public_id then
      (.okMsg "Resource deleted", deleteById id db,
       ev0 ++ [Ev.cloudDestroy ("resources/" ++ resource.public_id.getD "") true,
               Ev.sqlDelete id])
    else
      (.okMsg "Resource deleted", deleteById id db, ev0 ++ [Ev.sqlDelete id])

/-- Variant A update pipeline: the multer middleware uploads any new
file before the handler runs. -/
def updatePipelineA (id : Nat) (body : ReqBody) (incoming : Option ReqFile)
    (db : List Row) : Resp × List Row × List Ev :=
  let m := multerA incoming
  let h := updateHandlerA id body m.1 db
  (h.1, h.2.1, m.2 ++ h.2.2)

/-- Variant B update pipeline: the fileFilter may reject the new file
before the handler runs. -/
def updatePipelineB (id : Nat) (body : ReqBody) (incoming : Option ReqFile)
    (db : List Row) : Resp × List Row × List Ev :=
  match multerB incoming with
  | (.rejected msg, evs) => (.err 500 msg, db, evs)
  | (.passed file?, evs) =>
    let h := updateHandlerB id body file? db
    (h.1, h.2.1, evs ++ h.2.2)

/-- Counts occurrences of the SQL placeholder marker in a query
string (every placeholder is written with a single dollar sign and no
other dollar sign occurs in the statements the handlers build). -/
def dollarCount (q : String) : Nat :=
  q.data.countP (fun a => a == '$')

/-- State machine extracting the numeric indices that follow each
dollar sign of a query string, in order of appearance. -/
def dollarIndicesGo : List Char → Option Nat → List Nat
  | [], some n => [n]
  | [], none => []
  | a :: rest, some n =>
    if a.isDigit then
      dollarIndicesGo rest (some (n * 10 + (a.toNat - 48)))
    else
      n :: dollarIndicesGo rest (if a == '$' then some 0 else none)
  | a :: rest, none =>
    dollarIndicesGo rest (if a == '$' then some 0 else none)

/-- The list of placeholder indices of a query string, in order. -/
def dollarIndices (q : String) : List Nat :=
  dollarIndicesGo q.data none

/-- Does sep occur as a contiguous segment of the list?  Used to state
when a URL contains the /resources/ folder marker or a chunk contains a
dot. -/
def occursIn (sep : List Char) : List Char → Bool
  | [] => sep.isEmpty
  | a :: rest => sep.isPrefixOf (a :: rest) || occursIn sep rest

set_option maxRecDepth 10000

/-! Concrete fixtures used by the witness and counterexample theorems. -/

/-- A Cloudinary raw URL of the shape the handlers store. -/
def wURL : String := "https://res.cloudinary.com/demo/raw/upload/v1/resources/abc.pdf"

/-- A stored row with both a file_url and a public_id. -/
def wRow : Row :=
  { id := 1, type_ := some "notes", title := some "t1",
    description := some "d1", size := some "1.00 MB",
    file_url := some wURL, public_id := some "abc" }

/-- A request body whose description field is absent. -/
def wBody : ReqBody :=
  { type_ := some "notes2", title := some "t2", description := none }

/-- An uploaded PDF of exactly one mebibyte. -/
def wFile : ReqFile :=
  { path := "https://host/raw/upload/v2/resources/new1.pdf",
    filename := "new1", size := some 1048576,
    mimetype := "application/pdf" }

/-- An uploaded file with a MIME type outside the allow-list. -/
def wZipFile : ReqFile :=
  { path := "https://host/raw/upload/v9/resources/zzz.pdf",
    filename := "zzz", size := some 5, mimetype := "application/zip" }

/-- A stored row with neither a file_url nor a public_id. -/
def wRowNoBlob : Row :=
  { id := 1, type_ := some "notes", title := some "t1",
    description := some "d1", size := some "Unknown size",
    file_url := none, public_id := none }

/-- URL prefix, public id and extension for the derivation fixture. -/
def wP : String := "https://res.cloudinary.com/demo/raw/upload/v1"

/-- Public id segment of the derivation fixture. -/
def wI : String := "abc123"

/-- Extension segment of the derivation fixture. -/
def wE : String := "pdf"

/-- A stored row whose file_url has the .../resources/id.ext shape and
which carries no explicit public_id. -/
def wRowUrlOnly : Row :=
  { id := 3, type_ := some "notes", title := some "t3",
    description := some "d3", size := some "1.00 MB",
    file_url := some (wP ++ "/resources/" ++ wI ++ "." ++ wE),
    public_id := none }

/-- C1: an update request whose id matches no row answers 404 with no
destroy call and no UPDATE statement, in both variants, also when a new
file is attached: the trace holds only the SELECT and the table is
unchanged. -/
theorem C1_update_missing_id_404 (id : Nat) (body : ReqBody)
    (file? : Option ReqFile) (db : List Row)
    (h : fetchById id db = none) :
    updateHandlerA id body file? db =
      (.err 404 "Resource not found", db, [Ev.sqlSelectById id]) ∧
    updateHandlerB id body file? db =
      (.err 404 "Resource not found", db, [Ev.sqlSelectById id]) := by
  constructor <;> simp only [updateHandlerA, updateHandlerB, h]

/-- C1 witness: id 2 is absent from the one-row table, and the update
request carrying a new file answers 404 with a SELECT-only trace. -/
theorem C1_update_missing_id_404_witness :
    fetchById 2 [wRow] = none ∧
    (updateHandlerA 2 wBody (some wFile) [wRow] =
      (.err 404 "Resource not found", [wRow], [Ev.sqlSelectById 2]) ∧
     updateHandlerB 2 wBody (some wFile) [wRow] =
      (.err 404 "Resource not found", [wRow], [Ev.sqlSelectById 2])) :=
  ⟨by decide, C1_update_missing_id_404 2 wBody (some wFile) [wRow] (by decide)⟩

/-- C2 counterexample: the claim is wrong on both cited code sites.  In
the part_000 variant a zero byte count is falsy, so it stores the
literal fallback instead of 0.00 MB; in the resources.js variant a
missing byte count renders NaN MB, never the literal Unknown size. -/
theorem C2_size_counterexample :
    sizeStringB (some 0) = "Unknown size" ∧
    sizeStringB (some 0) ≠ "0.00 MB" ∧
    sizeStringA none = "NaN MB" ∧
    sizeStringA none ≠ "Unknown size" := by decide

/-- C2 amended: byte count 1,048,576 renders 1.00 MB in both variants;
byte count 0 renders 0.00 MB only in resources.js, while part_000
treats 0 as falsy and stores Unknown size; a missing byte count renders
Unknown size only in part_000, while resources.js renders NaN MB.  The
add handlers store exactly these strings in the inserted row. -/
theorem C2_size_amended :
    sizeStringA (some 1048576) = "1.00 MB" ∧
    sizeStringB (some 1048576) = "1.00 MB" ∧
    sizeStringA (some 0) = "0.00 MB" ∧
    sizeStringB (some 0) = "Unknown size" ∧
    sizeStringA none = "NaN MB" ∧
    sizeStringB none = "Unknown size" ∧
    (∀ body f db, ∃ r, (addHandlerA body (some f) db).1 = Resp.ok r ∧
      r.size = some (sizeStringA f.size)) ∧
    (∀ body f db, ∃ r, (addHandlerB body (some f) db).1 = Resp.ok r ∧
      r.size = some (sizeStringB f.size)) := by
  refine ⟨by decide, by decide, by decide, by decide, by decide, by decide,
    fun body f db => ⟨_, rfl, rfl⟩, fun body f db => ⟨_, rfl, rfl⟩⟩

/-- C3 counterexample: in the resources.js variant there is no MIME
check at all, so an add request with MIME type application/zip is not
rejected: the file is streamed to the store (an upload event occurs)
and the handler answers with the inserted row. -/
theorem C3_mime_counterexample :
    Ev.cloudUpload wZipFile ∈ (addPipelineA wBody (some wZipFile) []).2.2 ∧
    (addPipelineA wBody (some wZipFile) []).1.isErr = false := by decide

/-- C3 amended: only the part_000 variant enforces the MIME allow-list;
there the multer fileFilter rejects a disallowed MIME type with the
Invalid-file-type error before the storage engine runs, so no upload
event and no insert occur and the table is unchanged.  The resources.js
variant performs no MIME check and uploads every file, relying only on
the store-side allowed_formats list. -/
theorem C3_filter_rejects_before_upload (body : ReqBody) (f : ReqFile)
    (db : List Row) (h : f.mimetype ∉ allowedMimes) :
    addPipelineB body (some f) db =
      (.err 500 "Invalid file type. Only PDF, DOC, DOCX allowed.", db, []) := by
  simp [addPipelineB, multerB, h]

/-- C3 witness: the zip upload is outside the allow-list and the
part_000 pipeline rejects it with an empty event trace. -/
theorem C3_filter_rejects_before_upload_witness :
    wZipFile.mimetype ∉ allowedMimes ∧
    addPipelineB wBody (some wZipFile) [wRow] =
      (.err 500 "Invalid file type. Only PDF, DOC, DOCX allowed.", [wRow], []) :=
  ⟨by decide, C3_filter_rejects_before_upload wBody wZipFile [wRow] (by decide)⟩

/-- C8: an add request without a file answers 400 in both variants,
inserts no row (the table part of the result is the unchanged input)
and triggers no upload (the event trace is empty). -/
theorem C8_add_no_file_400 (body : ReqBody) (db : List Row) :
    addPipelineA body none db = (.err 400 "File is required", db, []) ∧
    addPipelineB body none db = (.err 400 "File is required", db, []) :=
  ⟨rfl, rfl⟩

/-- C4: an update on an existing id with no new file runs the fixed
four-parameter statement that assigns only type, title and description;
the row keeps its size, file_url and public_id (the updated row is the
old row with only the three scalar fields replaced), in both variants. -/
theorem C4_update_no_file_frame (id : Nat) (body : ReqBody) (db : List Row)
    (row : Row) (h : fetchById id db = some row) :
    updateHandlerA id body none db =
      (.ok { row with
             type_ := body.type_, title := body.title,
             description := body.description },
       replaceById id
         { row with
           type_ := body.type_, title := body.title,
           description := body.description } db,
       [Ev.sqlSelectById id,
        Ev.sqlUpdate
          "UPDATE resources SET type=$1, title=$2, description=$3 WHERE id=$4 RETURNING *"
          [optVal body.type_, optVal body.title, optVal body.description,
           SqlVal.num id]]) ∧
    updateHandlerB id body none db =
      (.ok { row with
             type_ := body.type_, title := body.title,
             description := body.description },
       replaceById id
         { row with
           type_ := body.type_, title := body.title,
           description := body.description } db,
       [Ev.sqlSelectById id,
        Ev.sqlUpdate
          "UPDATE resources SET type=$1, title=$2, description=$3 WHERE id=$4 RETURNING *"
          [optVal body.type_, optVal body.title, optVal body.description,
           SqlVal.num id]]) := by
  constructor
  · unfold updateHandlerA
    rw [h]
    rfl
  · unfold updateHandlerB
    rw [h]
    rfl

/-- C4 witness: updating row 1 without a file keeps its size, file_url
and public_id and runs the four-placeholder statement. -/
theorem C4_update_no_file_frame_witness :
    fetchById 1 [wRow] = some wRow ∧
    (updateHandlerA 1 wBody none [wRow] =
      (.ok { wRow with
             type_ := wBody.type_, title := wBody.title,
             description := wBody.description },
       replaceById 1
         { wRow with
           type_ := wBody.type_, title := wBody.title,
           description := wBody.description } [wRow],
       [Ev.sqlSelectById 1,
        Ev.sqlUpdate
          "UPDATE resources SET type=$1, title=$2, description=$3 WHERE id=$4 RETURNING *"
          [optVal wBody.type_, optVal wBody.title, optVal wBody.description,
           SqlVal.num 1]]) ∧
     updateHandlerB 1 wBody none [wRow] =
      (.ok { wRow with
             type_ := wBody.type_, title := wBody.title,
             description := wBody.description },
       replaceById 1
         { wRow with
           type_ := wBody.type_, title := wBody.title,
           description := wBody.description } [wRow],
       [Ev.sqlSelectById 1,
        Ev.sqlUpdate
          "UPDATE resources SET type=$1, title=$2, description=$3 WHERE id=$4 RETURNING *"
          [optVal wBody.type_, optVal wBody.title, optVal wBody.description,
           SqlVal.num 1]])) :=
  ⟨by decide, C4_update_no_file_frame 1 wBody [wRow] wRow (by decide)⟩

/-- C9: when the fetched row's blob reference is null (file_url in
variant A, public_id in variant B) the destroy call is skipped and the
handler proceeds straight to the row operation: the update with a new
file commits it and the delete removes the row, with no destroy event
and no error — in particular variant A never applies the URL-parsing
derivation to a null file_url. -/
theorem C9_null_blob_ref_skips_destroy (id : Nat) (body : ReqBody)
    (f : ReqFile) (db : List Row) (row : Row)
    (h : fetchById id db = some row)
    (hu : row.file_url = none) (hp : row.public_id = none) :
    updateHandlerA id body (some f) db =
      (.ok { row with
             type_ := body.type_, title := body.title,
             description := body.description,
             size := some (sizeStringA f.size), file_url := some f.path },
       replaceById id
         { row with
           type_ := body.type_, title := body.title,
           description := body.description,
           size := some (sizeStringA f.size), file_url := some f.path } db,
       [Ev.sqlSelectById id,
        Ev.sqlUpdate
          "UPDATE resources SET type=$1, title=$2, description=$3, size=$4, file_url=$5 WHERE id=$6 RETURNING *"
          [optVal body.type_, optVal body.title, optVal body.description,
           SqlVal.str (sizeStringA f.size), SqlVal.str f.path,
           SqlVal.num id]]) ∧
    deleteHandlerA id db =
      (.okMsg "Resource deleted", deleteById id db,
       [Ev.sqlSelectById id, Ev.sqlDelete id]) ∧
    updateHandlerB id body (some f) db =
      (.ok { row with
             type_ := body.type_, title := body.title,
             description := body.description,
             size := some (sizeStringB f.size), file_url := some f.path,
             public_id := some f.filename },
       replaceById id
         { row with
           type_ := body.type_, title := body.title,
           description := body.description,
           size := some (sizeStringB f.size), file_url := some f.path,
           public_id := some f.filename } db,
       [Ev.sqlSelectById id,
        Ev.sqlUpdate
          "UPDATE resources SET type=$1, title=$2, description=$3, size=$4, file_url=$5, public_id=$6 WHERE id=$7 RETURNING *"
          [optVal body.type_, optVal body.title, optVal body.description,
           SqlVal.str (sizeStringB f.size), SqlVal.str f.path,
           SqlVal.str f.filename, SqlVal.num id]]) ∧
    deleteHandlerB id db =
      (.okMsg "Resource deleted", deleteById id db,
       [Ev.sqlSelectById id, Ev.sqlDelete id]) := by
  refine ⟨?_, ?_, ?_, ?_⟩
  · simp only [updateHandlerA, h]
    rw [hu]
    rfl
  · simp only [deleteHandlerA, h]
    rw [hu]
    rfl
  · simp only [updateHandlerB, h]
    rw [hp]
    rfl
  · simp only [deleteHandlerB, h]
    rw [hp]
    rfl

/-- C9 witness: on the stored row with neither file_url nor public_id,
both delete handlers succeed with a SELECT/DELETE-only trace. -/
theorem C9_null_blob_ref_skips_destroy_witness :
    (fetchById 1 [wRowNoBlob] = some wRowNoBlob ∧
     wRowNoBlob.file_url = none ∧ wRowNoBlob.public_id = none) ∧
    deleteHandlerA 1 [wRowNoBlob] =
      (.okMsg "Resource deleted", deleteById 1 [wRowNoBlob],
       [Ev.sqlSelectById 1, Ev.sqlDelete 1]) ∧
    deleteHandlerB 1 [wRowNoBlob] =
      (.okMsg "Resource deleted", deleteById 1 [wRowNoBlob],
       [Ev.sqlSelectById 1, Ev.sqlDelete 1]) :=
  ⟨⟨by decide, by decide, by decide⟩,
   (C9_null_blob_ref_skips_destroy 1 wBody wFile [wRowNoBlob] wRowNoBlob
     (by decide) (by decide) (by decide)).2.1,
   (C9_null_blob_ref_skips_destroy 1 wBody wFile [wRowNoBlob] wRowNoBlob
     (by decide) (by decide) (by decide)).2.2.2⟩

/-- C5: the blob destroy always precedes the dependent row operation.
In both delete handlers the trace is SELECT, destroy, DELETE; in both
update handlers with a new file and a stored blob reference the trace
is SELECT, destroy of the old blob, then the UPDATE that commits the
new file reference — so the destroy event sits strictly before the row
event in every trace. -/
theorem C5_destroy_precedes_row_op (id : Nat) (body : ReqBody)
    (f : ReqFile) (db : List Row) (row : Row) (u pid pb : String)
    (h : fetchById id db = some row)
    (hu : row.file_url = some u) (hne : u ≠ "")
    (hd : derivePublicId u = some pid)
    (hp : row.public_id = some pb) (hbne : pb ≠ "") :
    (deleteHandlerA id db).2.2 =
      [Ev.sqlSelectById id, Ev.cloudDestroy ("resources/" ++ pid) true,
       Ev.sqlDelete id] ∧
    (updateHandlerA id body (some f) db).2.2 =
      [Ev.sqlSelectById id, Ev.cloudDestroy ("resources/" ++ pid) true,
       Ev.sqlUpdate
         "UPDATE resources SET type=$1, title=$2, description=$3, size=$4, file_url=$5 WHERE id=$6 RETURNING *"
         [optVal body.type_, optVal body.title, optVal body.description,
          SqlVal.str (sizeStringA f.size), SqlVal.str f.path,
          SqlVal.num id]] ∧
    (deleteHandlerB id db).2.2 =
      [Ev.sqlSelectById id, Ev.cloudDestroy ("resources/" ++ pb) true,
       Ev.sqlDelete id] ∧
    (updateHandlerB id body (some f) db).2.2 =
      [Ev.sqlSelectById id, Ev.cloudDestroy ("resources/" ++ pb) true,
       Ev.sqlUpdate
         "UPDATE resources SET type=$1, title=$2, description=$3, size=$4, file_url=$5, public_id=$6 WHERE id=$7 RETURNING *"
         [optVal body.type_, optVal body.title, optVal body.description,
          SqlVal.str (sizeStringB f.size), SqlVal.str f.path,
          SqlVal.str f.filename, SqlVal.num id]] := by
  have htu : jsTruthyStr (some u) = true := by simp [jsTruthyStr, hne]
  have htb : jsTruthyStr (some pb) = true := by simp [jsTruthyStr, hbne]
  refine ⟨?_, ?_, ?_, ?_⟩
  · simp only [deleteHandlerA, h]
    rw [hu]
    simp only [Option.getD_some, htu, hd]
    simp
  · simp only [updateHandlerA, h]
    rw [hu]
    simp only [Option.getD_some, htu, hd]
    rfl
  · simp only [deleteHandlerB, h]
    rw [hp]
    simp only [Option.getD_some, htb]
    simp
  · simp only [updateHandlerB, h]
    rw [hp]
    simp only [Option.getD_some, htb]
    rfl

/-- C5 witness: on the stored row, both delete handlers destroy the
blob at trace position 1 and delete the row at trace position 2. -/
theorem C5_destroy_precedes_row_op_witness :
    (fetchById 1 [wRow] = some wRow ∧ wRow.file_url = some wURL ∧
     wURL ≠ "" ∧ derivePublicId wURL = some "abc" ∧
     wRow.public_id = some "abc" ∧ "abc" ≠ "") ∧
    (deleteHandlerA 1 [wRow]).2.2 =
      [Ev.sqlSelectById 1, Ev.cloudDestroy "resources/abc" true,
       Ev.sqlDelete 1] ∧
    (deleteHandlerB 1 [wRow]).2.2 =
      [Ev.sqlSelectById 1, Ev.cloudDestroy "resources/abc" true,
       Ev.sqlDelete 1] :=
  ⟨⟨by decide, by decide, by decide, by decide, by decide, by decide⟩,
   (C5_destroy_precedes_row_op 1 wBody wFile [wRow] wRow wURL "abc" "abc"
     (by decide) (by decide) (by decide) (by decide) (by decide) (by decide)).1,
   (C5_destroy_precedes_row_op 1 wBody wFile [wRow] wRow wURL "abc" "abc"
     (by decide) (by decide) (by decide) (by decide) (by decide) (by decide)).2.2.1⟩

/-- C7: every UPDATE statement an update handler executes has
placeholders exactly at the indices 1..n in order of appearance, where
n is the length of its values array, and the last value is the id, so
the trailing id placeholder is at index 4 with no file, at index 6 with
a file in variant A (size, file_url appended) and at index 7 with a
file in variant B (size, file_url, public_id appended). -/
theorem C7_placeholder_positions (id : Nat) (body : ReqBody)
    (file? : Option ReqFile) (db : List Row) :
    (∀ q v, Ev.sqlUpdate q v ∈ (updateHandlerA id body file? db).2.2 →
      dollarIndices q = List.range' 1 v.length ∧
      dollarCount q = v.length ∧
      v.getLast? = some (SqlVal.num id) ∧
      v.length = if file?.isSome then 6 else 4) ∧
    (∀ q v, Ev.sqlUpdate q v ∈ (updateHandlerB id body file? db).2.2 →
      dollarIndices q = List.range' 1 v.length ∧
      dollarCount q = v.length ∧
      v.getLast? = some (SqlVal.num id) ∧
      v.length = if file?.isSome then 7 else 4) := by
  constructor
  · intro q v hm
    cases hf : fetchById id db with
    | none =>
      simp only [updateHandlerA, hf] at hm
      simp at hm
    | some row =>
      cases file? with
      | none =>
        simp only [updateHandlerA, hf] at hm
        simp at hm
        obtain ⟨hq, hv⟩ := hm
        subst hq
        subst hv
        refine ⟨?_, ?_, rfl, rfl⟩ <;>
          (simp only [List.length_cons, List.length_nil]; decide)
      | some f =>
        cases ht : jsTruthyStr row.file_url with
        | false =>
          simp only [updateHandlerA, updateCommitA, hf, ht] at hm
          simp at hm
          obtain ⟨hq, hv⟩ := hm
          subst hq
          subst hv
          refine ⟨?_, ?_, rfl, rfl⟩ <;>
            (simp only [List.length_cons, List.length_nil]; decide)
        | true =>
          cases hdv : derivePublicId (row.file_url.getD "") with
          | none =>
            simp only [updateHandlerA, hf, ht, hdv] at hm
            simp at hm
          | some pid =>
            simp only [updateHandlerA, updateCommitA, hf, ht, hdv] at hm
            simp at hm
            obtain ⟨hq, hv⟩ := hm
            subst hq
            subst hv
            refine ⟨?_, ?_, rfl, rfl⟩ <;>
            (simp only [List.length_cons, List.length_nil]; decide)
  · intro q v hm
    cases hf : fetchById id db with
    | none =>
      simp only [updateHandlerB, hf] at hm
      simp at hm
    | some row =>
      cases file? with
      | none =>
        simp only [updateHandlerB, hf] at hm
        simp at hm
        obtain ⟨hq, hv⟩ := hm
        subst hq
        subst hv
        refine ⟨?_, ?_, rfl, rfl⟩ <;>
          (simp only [List.length_cons, List.length_nil]; decide)
      | some f =>
        cases ht : jsTruthyStr row.public_id with
        | false =>
          simp only [updateHandlerB, updateCommitB, hf, ht] at hm
          simp at hm
          obtain ⟨hq, hv⟩ := hm
          subst hq
          subst hv
          refine ⟨?_, ?_, rfl, rfl⟩ <;>
            (simp only [List.length_cons, List.length_nil]; decide)
        | true =>
          simp only [updateHandlerB, updateCommitB, hf, ht] at hm
          simp at hm
          obtain ⟨hq, hv⟩ := hm
          subst hq
          subst hv
          refine ⟨?_, ?_, rfl, rfl⟩ <;>
            (simp only [List.length_cons, List.length_nil]; decide)

/-- C7 witness: the concrete with-file update of variant A runs the
six-placeholder statement with placeholders 1..6 in order, six values,
and the id as the last value. -/
theorem C7_placeholder_positions_witness :
    dollarIndices
      "UPDATE resources SET type=$1, title=$2, description=$3, size=$4, file_url=$5 WHERE id=$6 RETURNING *" =
      List.range' 1 ([SqlVal.str "notes2", SqlVal.str "t2", SqlVal.null,
        SqlVal.str "1.00 MB",
        SqlVal.str "https://host/raw/upload/v2/resources/new1.pdf",
        SqlVal.num 1] : List SqlVal).length ∧
    dollarCount
      "UPDATE resources SET type=$1, title=$2, description=$3, size=$4, file_url=$5 WHERE id=$6 RETURNING *" =
      ([SqlVal.str "notes2", SqlVal.str "t2", SqlVal.null,
        SqlVal.str "1.00 MB",
        SqlVal.str "https://host/raw/upload/v2/resources/new1.pdf",
        SqlVal.num 1] : List SqlVal).length ∧
    ([SqlVal.str "notes2", SqlVal.str "t2", SqlVal.null,
      SqlVal.str "1.00 MB",
      SqlVal.str "https://host/raw/upload/v2/resources/new1.pdf",
      SqlVal.num 1] : List SqlVal).getLast? = some (SqlVal.num 1) ∧
    ([SqlVal.str "notes2", SqlVal.str "t2", SqlVal.null,
      SqlVal.str "1.00 MB",
      SqlVal.str "https://host/raw/upload/v2/resources/new1.pdf",
      SqlVal.num 1] : List SqlVal).length = 6 :=
  (C7_placeholder_positions 1 wBody (some wFile) [wRow]).1
    "UPDATE resources SET type=$1, title=$2, description=$3, size=$4, file_url=$5 WHERE id=$6 RETURNING *"
    [SqlVal.str "notes2", SqlVal.str "t2", SqlVal.null,
     SqlVal.str "1.00 MB",
     SqlVal.str "https://host/raw/upload/v2/resources/new1.pdf",
     SqlVal.num 1]
    (by decide)

/-- C10: both update handlers overwrite type, title and description
with the request-body values unconditionally: the first three bound
values of every executed UPDATE are exactly the body fields (an absent
field binds NULL, since optVal none is the NULL value), and every row
returned by a successful update carries the body fields verbatim — no
merge with the fetched row happens. -/
theorem C10_body_overwrites_scalar_fields (id : Nat) (body : ReqBody)
    (file? : Option ReqFile) (db : List Row) :
    optVal none = SqlVal.null ∧
    (∀ q v, Ev.sqlUpdate q v ∈ (updateHandlerA id body file? db).2.2 →
      v.take 3 = [optVal body.type_, optVal body.title, optVal body.description]) ∧
    (∀ r, (updateHandlerA id body file? db).1 = Resp.ok r →
      r.type_ = body.type_ ∧ r.title = body.title ∧
      r.description = body.description) ∧
    (∀ q v, Ev.sqlUpdate q v ∈ (updateHandlerB id body file? db).2.2 →
      v.take 3 = [optVal body.type_, optVal body.title, optVal body.description]) ∧
    (∀ r, (updateHandlerB id body file? db).1 = Resp.ok r →
      r.type_ = body.type_ ∧ r.title = body.title ∧
      r.description = body.description) := by
  refine ⟨rfl, ?_, ?_, ?_, ?_⟩
  · intro q v hm
    cases hf : fetchById id db with
    | none =>
      simp only [updateHandlerA, hf] at hm
      simp at hm
    | some row =>
      cases file? with
      | none =>
        simp only [updateHandlerA, hf] at hm
        simp at hm
        obtain ⟨hq, hv⟩ := hm
        subst hv
        rfl
      | some f =>
        cases ht : jsTruthyStr row.file_url with
        | false =>
          simp only [updateHandlerA, updateCommitA, hf, ht] at hm
          simp at hm
          obtain ⟨hq, hv⟩ := hm
          subst hv
          rfl
        | true =>
          cases hdv : derivePublicId (row.file_url.getD "") with
          | none =>
            simp only [updateHandlerA, hf, ht, hdv] at hm
            simp at hm
          | some pid =>
            simp only [updateHandlerA, updateCommitA, hf, ht, hdv] at hm
            simp at hm
            obtain ⟨hq, hv⟩ := hm
            subst hv
            rfl
  · intro r hr
    cases hf : fetchById id db with
    | none =>
      simp only [updateHandlerA, hf] at hr
      simp at hr
    | some row =>
      cases file? with
      | none =>
        simp only [updateHandlerA, hf] at hr
        simp at hr
        subst hr
        exact ⟨rfl, rfl, rfl⟩
      | some f =>
        cases ht : jsTruthyStr row.file_url with
        | false =>
          simp only [updateHandlerA, updateCommitA, hf, ht] at hr
          simp at hr
          subst hr
          exact ⟨rfl, rfl, rfl⟩
        | true =>
          cases hdv : derivePublicId (row.file_url.getD "") with
          | none =>
            simp only [updateHandlerA, hf, ht, hdv] at hr
            simp at hr
          | some pid =>
            simp only [updateHandlerA, updateCommitA, hf, ht, hdv] at hr
            simp at hr
            subst hr
            exact ⟨rfl, rfl, rfl⟩
  · intro q v hm
    cases hf : fetchById id db with
    | none =>
      simp only [updateHandlerB, hf] at hm
      simp at hm
    | some row =>
      cases file? with
      | none =>
        simp only [updateHandlerB, hf] at hm
        simp at hm
        obtain ⟨hq, hv⟩ := hm
        subst hv
        rfl
      | some f =>
        cases ht : jsTruthyStr row.public_id with
        | false =>
          simp only [updateHandlerB, updateCommitB, hf, ht] at hm
          simp at hm
          obtain ⟨hq, hv⟩ := hm
          subst hv
          rfl
        | true =>
          simp only [updateHandlerB, updateCommitB, hf, ht] at hm
          simp at hm
          obtain ⟨hq, hv⟩ := hm
          subst hv
          rfl
  · intro r hr
    cases hf : fetchById id db with
    | none =>
      simp only [updateHandlerB, hf] at hr
      simp at hr
    | some row =>
      cases file? with
      | none =>
        simp only [updateHandlerB, hf] at hr
        simp at hr
        subst hr
        exact ⟨rfl, rfl, rfl⟩
      | some f =>
        cases ht : jsTruthyStr row.public_id with
        | false =>
          simp only [updateHandlerB, updateCommitB, hf, ht] at hr
          simp at hr
          subst hr
          exact ⟨rfl, rfl, rfl⟩
        | true =>
          simp only [updateHandlerB, updateCommitB, hf, ht] at hr
          simp at hr
          subst hr
          exact ⟨rfl, rfl, rfl⟩

/-- C10 witness: updating row 1 with a body whose description is absent
returns a row whose description is null, although the stored row had a
non-null description. -/
theorem C10_body_overwrites_scalar_fields_witness :
    ({ id := 1, type_ := some "notes2", title := some "t2",
       description := none, size := some "1.00 MB",
       file_url := some wURL, public_id := some "abc" } : Row).type_ =
      wBody.type_ ∧
    ({ id := 1, type_ := some "notes2", title := some "t2",
       description := none, size := some "1.00 MB",
       file_url := some wURL, public_id := some "abc" } : Row).title =
      wBody.title ∧
    ({ id := 1, type_ := some "notes2", title := some "t2",
       description := none, size := some "1.00 MB",
       file_url := some wURL, public_id := some "abc" } : Row).description =
      wBody.description :=
  (C10_body_overwrites_scalar_fields 1 wBody none [wRow]).2.2.1
    { id := 1, type_ := some "notes2", title := some "t2",
      description := none, size := some "1.00 MB",
      file_url := some wURL, public_id := some "abc" }
    (by decide)

/-- Skipping exactly the length of a consumed prefix lands the scanner
back in scanning state at the remainder. -/
theorem splitGo_skip (c : Char) (cs : List Char) (x : List Char) :
    ∀ (t acc : List Char),
      splitGo c cs x.length acc (x ++ t) = splitGo c cs 0 acc t := by
  induction x with
  | nil => intro t acc; rfl
  | cons a x ih =>
    intro t acc
    exact ih t acc

/-- A chunk without any separator occurrence is returned whole. -/
theorem splitGo_not_occurs (c : Char) (cs : List Char) :
    ∀ (s acc : List Char), occursIn (c :: cs) s = false →
      splitGo c cs 0 acc s = [acc ++ s] := by
  intro s
  induction s with
  | nil =>
    intro acc h
    simp [splitGo]
  | cons a rest ih =>
    intro acc h
    simp only [occursIn, Bool.or_eq_false_iff] at h
    obtain ⟨h1, h2⟩ := h
    simp only [splitGo, h1]
    rw [ih (acc ++ [a]) h2]
    simp

/-- When the separator first occurs exactly after a prefix p, the
scanner emits p as the first chunk and resumes after the separator. -/
theorem splitGo_boundary (c : Char) (cs : List Char) :
    ∀ (p t : List Char),
      (∀ j, j < p.length →
        (c :: cs).isPrefixOf ((p ++ (c :: cs ++ t)).drop j) = false) →
      ∀ acc, splitGo c cs 0 acc (p ++ (c :: cs ++ t)) =
        (acc ++ p) :: splitGo c cs 0 [] t := by
  intro p
  induction p with
  | nil =>
    intro t hp acc
    have hpre : (c :: cs).isPrefixOf (c :: (cs ++ t)) = true := by
      simp only [List.isPrefixOf_cons₂]
      simp [List.isPrefixOf_iff_prefix]
    show splitGo c cs 0 acc (c :: (cs ++ t)) = (acc ++ []) :: splitGo c cs 0 [] t
    simp only [splitGo, hpre, if_true]
    rw [splitGo_skip]
    simp
  | cons a p ih =>
    intro t hp acc
    have h0 : (c :: cs).isPrefixOf (a :: (p ++ (c :: cs ++ t))) = false := by
      have hx := hp 0 (by simp)
      simpa using hx
    show splitGo c cs 0 acc (a :: (p ++ (c :: cs ++ t))) =
      (acc ++ (a :: p)) :: splitGo c cs 0 [] t
    simp only [splitGo, h0]
    rw [ih t ?_ (acc ++ [a])]
    · simp
    · intro j hj
      have hx := hp (j + 1) (by simpa using Nat.succ_lt_succ hj)
      simpa using hx

/-- On every URL of the form prefix/resources/id.ext whose prefix does
not already contain the folder marker, whose tail contains it no second
time, and whose id segment is dot-free, the split-based derivation
recovers exactly the id segment. -/
theorem derivePublicId_of_url_shape (p i e : String)
    (h1 : ∀ j, j < p.data.length →
      ("/resources/".data).isPrefixOf
        ((p ++ "/resources/" ++ i ++ "." ++ e).data.drop j) = false)
    (h2 : occursIn ("/resources/".data) ((i ++ "." ++ e).data) = false)
    (h3 : ∀ j, j < i.data.length →
      (".".data).isPrefixOf ((i ++ "." ++ e).data.drop j) = false) :
    derivePublicId (p ++ "/resources/" ++ i ++ "." ++ e) = some i := by
  have hTdata : (i ++ "." ++ e).data = i.data ++ (".".data ++ e.data) := by
    simp only [String.data_append, List.append_assoc]
  have hurl : (p ++ "/resources/" ++ i ++ "." ++ e).data
      = p.data ++ ("/resources/".data ++ (i ++ "." ++ e).data) := by
    simp only [String.data_append, List.append_assoc]
  have hps : ∀ j, j < p.data.length →
      ('/' :: "resources/".data).isPrefixOf
        ((p.data ++ ('/' :: ("resources/".data ++ (i ++ "." ++ e).data))).drop j)
        = false := by
    intro j hj
    have hx := h1 j hj
    rw [hurl] at hx
    exact hx
  have hs1 := splitGo_boundary '/' ("resources/".data) p.data
    ((i ++ "." ++ e).data) hps []
  have hs2 := splitGo_not_occurs '/' ("resources/".data)
    ((i ++ "." ++ e).data) [] h2
  have hps3 : ∀ j, j < i.data.length →
      ('.' :: ([] : List Char)).isPrefixOf
        ((i.data ++ ('.' :: ([] ++ e.data))).drop j) = false := by
    intro j hj
    have hx := h3 j hj
    rw [hTdata] at hx
    exact hx
  have hs3 := splitGo_boundary '.' [] i.data e.data hps3 []
  have hsplit : jsSplit (p ++ "/resources/" ++ i ++ "." ++ e) "/resources/"
      = [List.asString ([] ++ p.data),
         List.asString ([] ++ (i ++ "." ++ e).data)] := by
    show (splitGo '/' ("resources/".data) 0 []
        ((p ++ "/resources/" ++ i ++ "." ++ e).data)).map List.asString = _
    rw [hurl]
    show (splitGo '/' ("resources/".data) 0 []
        (p.data ++ (('/' :: "resources/".data) ++ (i ++ "." ++ e).data))).map
        List.asString = _
    rw [hs1, hs2]
    rfl
  have hinner : jsSplit (List.asString ([] ++ (i ++ "." ++ e).data)) "."
      = List.asString ([] ++ i.data) ::
        (splitGo '.' [] 0 [] e.data).map List.asString := by
    show (splitGo '.' [] 0 [] ([] ++ (i ++ "." ++ e).data)).map List.asString = _
    show (splitGo '.' [] 0 [] ((i ++ "." ++ e).data)).map List.asString = _
    rw [hTdata]
    show (splitGo '.' [] 0 [] (i.data ++ (['.'] ++ e.data))).map
        List.asString = _
    rw [hs3]
    rfl
  simp only [derivePublicId]
  rw [hsplit]
  show some ((jsSplit (List.asString ([] ++ (i ++ "." ++ e).data)) ".").headD "")
      = some i
  rw [hinner]
  rfl

/-- C6: when a row stores no explicit identifier, the delete handler of
resources.js derives the blob identifier from the stored file_url by
taking the segment after the /resources/ folder and stripping the
extension: on every file_url of the form prefix/resources/id.ext (the
folder marker occurring exactly once and the id segment dot-free) the
derivation yields exactly the id segment, and the handler destroys
resources/id before deleting the row. -/
theorem C6_delete_derives_identifier (p i e : String) (id : Nat)
    (db : List Row) (row : Row)
    (h1 : ∀ j, j < p.data.length →
      ("/resources/".data).isPrefixOf
        ((p ++ "/resources/" ++ i ++ "." ++ e).data.drop j) = false)
    (h2 : occursIn ("/resources/".data) ((i ++ "." ++ e).data) = false)
    (h3 : ∀ j, j < i.data.length →
      (".".data).isPrefixOf ((i ++ "." ++ e).data.drop j) = false)
    (hrow : fetchById id db = some row)
    (hu : row.file_url = some (p ++ "/resources/" ++ i ++ "." ++ e)) :
    derivePublicId (p ++ "/resources/" ++ i ++ "." ++ e) = some i ∧
    deleteHandlerA id db =
      (.okMsg "Resource deleted", deleteById id db,
       [Ev.sqlSelectById id, Ev.cloudDestroy ("resources/" ++ i) true,
        Ev.sqlDelete id]) := by
  have hder := derivePublicId_of_url_shape p i e h1 h2 h3
  have hurl : (p ++ "/resources/" ++ i ++ "." ++ e).data
      = p.data ++ ("/resources/".data ++ (i ++ "." ++ e).data) := by
    simp only [String.data_append, List.append_assoc]
  have hne : (p ++ "/resources/" ++ i ++ "." ++ e) ≠ "" := by
    intro heq
    have hnil : (p ++ "/resources/" ++ i ++ "." ++ e).data = [] := by
      rw [heq]
    rw [hurl] at hnil
    have hlen := congrArg List.length hnil
    have h11 : ("/resources/".data).length = 11 := rfl
    simp [List.length_append, h11] at hlen
  have htu : jsTruthyStr (some (p ++ "/resources/" ++ i ++ "." ++ e)) = true := by
    simp [jsTruthyStr, hne]
  refine ⟨hder, ?_⟩
  simp only [deleteHandlerA, hrow]
  rw [hu]
  simp only [Option.getD_some, htu, hder]
  simp

/-- C6 witness: on the concrete Cloudinary URL the derivation yields
abc123 and the delete handler destroys resources/abc123 then deletes
the row. -/
theorem C6_delete_derives_identifier_witness :
    derivePublicId (wP ++ "/resources/" ++ wI ++ "." ++ wE) = some wI ∧
    deleteHandlerA 3 [wRowUrlOnly] =
      (.okMsg "Resource deleted", deleteById 3 [wRowUrlOnly],
       [Ev.sqlSelectById 3, Ev.cloudDestroy ("resources/" ++ wI) true,
        Ev.sqlDelete 3]) :=
  C6_delete_derives_identifier wP wI wE 3 [wRowUrlOnly] wRowUrlOnly
    (by decide) (by decide) (by decide) (by decide) (by decide)
